import Mathlib

set_option maxRecDepth 4000

/-!
Verification development for the flickr-to-miro pipeline (src/flick.py).

The program is a single linear pipeline: paginate a photo album listing
API, pick one image URL per photo record, compute a grid layout, issue
creation and grouping calls to a whiteboard API with a bounded retry on
the rate-limit status, and report progress.

This file shallowly embeds the pure logic of that script:
  - JSON scalar values that can appear in identifier lists (PyVal);
  - the identifier coercion helper (coerce_ids_to_numbers, from
    the source function of the same Python name with a leading
    underscore);
  - the image URL selector (pick_best_image_url);
  - the grid layout arithmetic from main (tileCenter);
  - the progress bar renderer (progress_bar);
  - the retry wrapper around POST (miro_post, from the Python
    function with a leading underscore);
  - the three-shape grouping fallback (miro_group_items);
  - the paginated album reader (flickr_photos_in_photoset);
  - the startup configuration check and the per-photo grouping
    decision from main.

HTTP exchanges are abstracted as functions from the request data the
script builds to the response the server would return; side effects
(sleeps, request traces) are made explicit as returned lists.
-/

/-- A JSON scalar as it appears in the item identifier lists handled by
the script: either a string or an integer. -/
inductive PyVal where
  | str : String → PyVal
  | int : Int → PyVal
deriving DecidableEq, Repr

/-- Base-10 value of an all-digit string, as computed by Python int(). -/
def str_to_int (s : String) : Int :=
  s.data.foldl (fun n c => 10 * n + ((c.toNat : Int) - ('0'.toNat : Int))) 0

/-- Python str.isdigit: true on a nonempty string all of whose
characters are digits. -/
def py_isdigit (s : String) : Bool :=
  decide (s.data ≠ []) && s.data.all Char.isDigit

/-- Embeds src/flick.py, def with a leading underscore,
coerce_ids_to_numbers (lines 148-156): walk the list, replacing each
string element that isdigit by int of it, keeping every other element. -/
def coerce_ids_to_numbers : List PyVal → List PyVal
  | [] => []
  | v :: rest =>
    (match v with
     | PyVal.str s => if py_isdigit s then PyVal.int (str_to_int s) else PyVal.str s
     | PyVal.int n => PyVal.int n) :: coerce_ids_to_numbers rest

/-- Spec-side description of the per-element coercion: a string
consisting only of digits is replaced by the corresponding integer,
every other element is unchanged. -/
def coerce_id_spec (v : PyVal) : PyVal :=
  match v with
  | PyVal.str s => if s ≠ "" ∧ s.data.all Char.isDigit then PyVal.int (str_to_int s) else v
  | PyVal.int _ => v

/-- Claim C9: coerce_ids_to_numbers maps each element independently
(same length, same order), replacing exactly the all-digit strings by
their integer values; in particular on the list of the strings 123, abc
and 45x it returns the integer 123 followed by the two unchanged
strings. -/
theorem c9_coerce_ids_pointwise (l : List PyVal) :
    coerce_ids_to_numbers l = l.map coerce_id_spec ∧
    (coerce_ids_to_numbers l).length = l.length ∧
    coerce_ids_to_numbers [PyVal.str "123", PyVal.str "abc", PyVal.str "45x"] =
      [PyVal.int 123, PyVal.str "abc", PyVal.str "45x"] := by
  refine ⟨?_, ?_, by decide⟩
  · induction l with
    | nil => rfl
    | cons v rest ih =>
      cases v with
      | str s =>
        simp only [coerce_ids_to_numbers, List.map, ih, coerce_id_spec, py_isdigit,
          Bool.and_eq_true, decide_eq_true_eq, ne_eq, String.ext_iff]
      | int n => simp [coerce_ids_to_numbers, List.map, ih, coerce_id_spec]
  · induction l with
    | nil => rfl
    | cons v rest ih => simp [coerce_ids_to_numbers, ih]

/-- A raw photo record from the album listing API, restricted to the
fields the script reads: the media kind and the seven size-specific URL
fields. A field that is absent from the JSON dict is none. -/
structure PhotoRecord where
  media : Option String
  url_c : Option String
  url_l : Option String
  url_z : Option String
  url_m : Option String
  url_h : Option String
  url_k : Option String
  url_o : Option String
deriving DecidableEq, Repr

/-- Embeds src/flick.py, pick_best_image_url (lines 70-77): skip
videos, then return the first of url_c, url_l, url_z, url_m, url_h,
url_k, url_o that is present, else none. -/
def pick_best_image_url (p : PhotoRecord) : Option String :=
  if p.media = some "video" then none
  else match p.url_c with
    | some u => some u
    | none => match p.url_l with
      | some u => some u
      | none => match p.url_z with
        | some u => some u
        | none => match p.url_m with
          | some u => some u
          | none => match p.url_h with
            | some u => some u
            | none => match p.url_k with
              | some u => some u
              | none => match p.url_o with
                | some u => some u
                | none => none

/-- First field present among an ordered list of field accessors
(spec-side formulation of the preference scan). -/
def first_present : List (PhotoRecord → Option String) → PhotoRecord → Option String
  | [], _ => none
  | g :: rest, p =>
    match g p with
    | some u => some u
    | none => first_present rest p

/-- The exact seven-step preference order of the claim. -/
def url_preference_order : List (PhotoRecord → Option String) :=
  [PhotoRecord.url_c, PhotoRecord.url_l, PhotoRecord.url_z, PhotoRecord.url_m,
   PhotoRecord.url_h, PhotoRecord.url_k, PhotoRecord.url_o]

/-- Claim C4: pick_best_image_url returns none for every video record;
for every non-video record it returns the first field present in the
exact order url_c, url_l, url_z, url_m, url_h, url_k, url_o, returns
none when all seven are absent, and in particular returns the url_c
value whenever both url_c and url_o are present. -/
theorem c4_pick_best_image_url_order (p : PhotoRecord) :
    (p.media = some "video" → pick_best_image_url p = none) ∧
    (p.media ≠ some "video" →
      pick_best_image_url p = first_present url_preference_order p) ∧
    (p.media ≠ some "video" → p.url_c = none → p.url_l = none → p.url_z = none →
      p.url_m = none → p.url_h = none → p.url_k = none → p.url_o = none →
      pick_best_image_url p = none) ∧
    (p.media ≠ some "video" → ∀ u w, p.url_c = some u → p.url_o = some w →
      pick_best_image_url p = some u) := by
  refine ⟨fun h => by simp [pick_best_image_url, h], fun h => ?_, ?_, ?_⟩
  · rw [pick_best_image_url, if_neg h]
    rfl
  · intro h hc hl hz hm hh hk ho
    simp [pick_best_image_url, h, hc, hl, hz, hm, hh, hk, ho]
  · intro h u w hc _
    simp [pick_best_image_url, h, hc]

/-- Witness for C4 at a concrete record holding both url_c and url_o. -/
theorem c4_witness :
    pick_best_image_url ⟨none, some "C", none, none, none, none, none, some "O"⟩ =
      some "C" :=
  (c4_pick_best_image_url_order _).2.2.2 (by decide) "C" "O" rfl rfl

/-- Embeds the tile placement arithmetic of src/flick.py, main
(lines 239-242): col and row from the 1-based index, then the absolute
center coordinates. Coordinates are rationals standing for the exact
real arithmetic of the layout. -/
def tileCenter (cols : Nat) (cellW cellH startX startY : ℚ) (i : Nat) : ℚ × ℚ :=
  let col := (i - 1) % cols
  let row := (i - 1) / cols
  (startX + (col : ℚ) * cellW, startY + (row : ℚ) * cellH)

/-- Claim C5: tileCenter computes exactly col = (i-1) mod cols,
row = (i-1) div cols, x = startX + col*cellW, y = startY + row*cellH,
and consequently with cols = 6 the tile at index i+6 shares the x of
the tile at index i and sits exactly one cellH lower. -/
theorem c5_tile_center_row_shift (cellW cellH startX startY : ℚ) (i : Nat)
    (h : 1 ≤ i) :
    tileCenter 6 cellW cellH startX startY i =
      (startX + (((i - 1) % 6 : Nat) : ℚ) * cellW,
       startY + (((i - 1) / 6 : Nat) : ℚ) * cellH) ∧
    (tileCenter 6 cellW cellH startX startY (i + 6)).1 =
      (tileCenter 6 cellW cellH startX startY i).1 ∧
    (tileCenter 6 cellW cellH startX startY (i + 6)).2 =
      (tileCenter 6 cellW cellH startX startY i).2 + cellH := by
  have h6 : i + 6 - 1 = (i - 1) + 6 := by omega
  refine ⟨rfl, ?_, ?_⟩
  · simp only [tileCenter, h6, Nat.add_mod_right]
  · have hd : ((i - 1) + 6) / 6 = (i - 1) / 6 + 1 := Nat.add_div_right _ (by norm_num)
    simp only [tileCenter, h6, hd]
    push_cast
    ring

/-- Witness for C5 at index 1 with the default geometry 440 by 420. -/
theorem c5_witness :
    1 ≤ 1 ∧
    ((tileCenter 6 440 420 0 0 (1 + 6)).1 = (tileCenter 6 440 420 0 0 1).1 ∧
     (tileCenter 6 440 420 0 0 (1 + 6)).2 = (tileCenter 6 440 420 0 0 1).2 + 420) :=
  ⟨by decide, (c5_tile_center_row_shift 440 420 0 0 1 (by decide)).2.1,
   (c5_tile_center_row_shift 440 420 0 0 1 (by decide)).2.2⟩

/-- Embeds src/flick.py, progress_bar (lines 194-197): a 0 ratio when
n = 0, else i/n; filled is the truncation of ratio*width; the bar is
filled hash marks, then width - filled dashes, then the fraction. -/
def progress_bar (i n width : Nat) : String :=
  let frac : ℚ := if n = 0 then 0 else (i : ℚ) / (n : ℚ)
  let filled := (Rat.floor (frac * (width : ℚ))).toNat
  "[" ++ String.mk (List.replicate filled '#')
      ++ String.mk (List.replicate (width - filled) '-')
      ++ "] " ++ toString i ++ "/" ++ toString n

/-- Claim C10: progress_bar is total at n = 0: the ratio is taken to be
0 rather than dividing by zero, so for every i and width the bar has
zero filled characters and width unfilled characters. -/
theorem c10_progress_bar_zero_total (i width : Nat) :
    progress_bar i 0 width =
      "[" ++ String.mk (List.replicate 0 '#')
          ++ String.mk (List.replicate width '-')
          ++ "] " ++ toString i ++ "/" ++ toString (0 : Nat) := by
  simp [progress_bar, show Rat.floor (0 : ℚ) = 0 from rfl]

/-- An HTTP response as the script sees it: status code, body text, and
the parsed JSON, abstracted as a natural number handle. -/
structure HttpResponse where
  status : Nat
  text : String
  json : Nat
deriving DecidableEq, Repr

/-- Python string slicing s[:n]: the first n characters of s. -/
def py_truncate (s : String) (n : Nat) : String :=
  String.mk (s.data.take n)

/-- What a call of the POST retry wrapper can raise: the HTTPError that
requests raise_for_status raises for a status of 400 or above, carrying
the status and the logged body truncated to 400 characters, or the
generic RuntimeError raised after the attempt loop. -/
inductive PostErr where
  | http : Nat → String → PostErr
  | runtimeFailed : PostErr
deriving DecidableEq, Repr

/-- Embeds the attempt loop of src/flick.py, def with a leading
underscore, miro_post (lines 88-101). The server is a map from the
attempt index to the response of that attempt; remaining counts the
loop iterations left, so the attempt index is tries - remaining. On a
429 response with at least one more attempt to go, sleep 2 and retry;
otherwise raise_for_status raises for status 400 and above, else the
parsed JSON is returned. Falling out of the loop raises RuntimeError.
The second component records the sleeps performed, in order. -/
def miro_post_go (responses : Nat → HttpResponse) (tries : Nat) :
    Nat → Except PostErr Nat × List Nat
  | 0 => (Except.error PostErr.runtimeFailed, [])
  | remaining + 1 =>
    let r := responses (tries - (remaining + 1))
    if r.status = 429 ∧ 1 ≤ remaining then
      let rest := miro_post_go responses tries remaining
      (rest.1, 2 :: rest.2)
    else if 400 ≤ r.status then
      (Except.error (PostErr.http r.status (py_truncate r.text 400)), [])
    else
      (Except.ok r.json, [])

/-- The retry wrapper entry point: run the loop with all tries
remaining. -/
def miro_post (responses : Nat → HttpResponse) (tries : Nat) :
    Except PostErr Nat × List Nat :=
  miro_post_go responses tries tries

/-- Unfolding of the loop at a spent attempt budget. -/
theorem miro_post_go_zero (responses : Nat → HttpResponse) (tries : Nat) :
    miro_post_go responses tries 0 = (Except.error PostErr.runtimeFailed, []) := rfl

/-- Unfolding of one loop iteration with k further iterations left. -/
theorem miro_post_go_succ (responses : Nat → HttpResponse) (tries k : Nat) :
    miro_post_go responses tries (k + 1) =
      (if (responses (tries - (k + 1))).status = 429 ∧ 1 ≤ k then
        ((miro_post_go responses tries k).1, 2 :: (miro_post_go responses tries k).2)
      else if 400 ≤ (responses (tries - (k + 1))).status then
        (Except.error (PostErr.http (responses (tries - (k + 1))).status
          (py_truncate (responses (tries - (k + 1))).text 400)), [])
      else
        (Except.ok (responses (tries - (k + 1))).json, [])) := rfl

/-- A server that answers every attempt with a 429 rate-limit status. -/
def all429 : Nat → HttpResponse :=
  fun _ => { status := 429, text := "rate limited", json := 0 }

/-- Counterexample to C1 as stated: when both of the 2 attempts receive
the 429 status, the wrapper raises the HTTPError of the second attempt
(status 429), not the RuntimeError Failed after retries. -/
theorem c1_counterexample :
    miro_post all429 2 =
      (Except.error (PostErr.http 429 "rate limited"), [2]) ∧
    (miro_post all429 2).1 ≠ Except.error PostErr.runtimeFailed := by
  have h : miro_post all429 2 = (Except.error (PostErr.http 429 "rate limited"), [2]) :=
    rfl
  refine ⟨h, ?_⟩
  rw [h]
  intro hc
  injection hc with h2
  exact PostErr.noConfusion h2

/-- Claim C1 amended: for every server and every positive attempt
count, if every attempt receives the 429 rate-limit status, the wrapper
raises the HTTPError of the last attempt, carrying status 429 and its
body truncated to 400 characters; the generic RuntimeError is never
reached. -/
theorem c1_retry_exhaustion_raises_http (responses : Nat → HttpResponse)
    (tries : Nat) (htries : 1 ≤ tries)
    (hall : ∀ a, a < tries → (responses a).status = 429) :
    (miro_post responses tries).1 =
      Except.error (PostErr.http 429 (py_truncate (responses (tries - 1)).text 400)) := by
  suffices h : ∀ remaining, 1 ≤ remaining → remaining ≤ tries →
      (miro_post_go responses tries remaining).1 =
        Except.error (PostErr.http 429 (py_truncate (responses (tries - 1)).text 400)) from
    h tries htries le_rfl
  intro remaining
  induction remaining with
  | zero => omega
  | succ k ih =>
    intro _ hle
    have hatt : tries - (k + 1) < tries := by omega
    have hst : (responses (tries - (k + 1))).status = 429 := hall _ hatt
    rw [miro_post_go_succ]
    by_cases hk : 1 ≤ k
    · rw [if_pos (And.intro hst hk)]
      exact ih hk (by omega)
    · have hk0 : k = 0 := by omega
      subst hk0
      rw [if_neg (fun hc => absurd hc.2 (by norm_num)),
          if_pos (show (400 : Nat) ≤ (responses (tries - (0 + 1))).status by
            rw [hst]; norm_num)]
      simp [hst]

/-- Witness for the amended C1 at the all-429 server with 2 attempts. -/
theorem c1_witness :
    (miro_post all429 2).1 = Except.error (PostErr.http 429 "rate limited") :=
  c1_retry_exhaustion_raises_http all429 2 (by decide) (fun _ _ => rfl)

/-- Claim C8: if the first attempt receives the 429 rate-limit status
and the second attempt succeeds (any status below 400), the 2-attempt
wrapper returns the parsed response of the second attempt without
raising, and sleeps exactly once, for 2 time units, between the two
attempts. -/
theorem c8_retry_then_success (responses : Nat → HttpResponse)
    (h0 : (responses 0).status = 429) (h1 : (responses 1).status < 400) :
    miro_post responses 2 = (Except.ok ((responses 1).json), [2]) := by
  have hs2 : ¬ 400 ≤ (responses 1).status := by omega
  have e1 : miro_post_go responses 2 1 = (Except.ok ((responses 1).json), []) := by
    have h := miro_post_go_succ responses 2 0
    norm_num at h
    rw [h, if_neg hs2]
  have e2 : miro_post_go responses 2 2 =
      ((miro_post_go responses 2 1).1, 2 :: (miro_post_go responses 2 1).2) := by
    have h := miro_post_go_succ responses 2 1
    norm_num at h
    rw [h, if_pos h0]
  rw [miro_post, e2, e1]

/-- A server that rate-limits the first attempt and succeeds on the
second. -/
def once429 : Nat → HttpResponse :=
  fun a => if a = 0 then { status := 429, text := "rate limited", json := 0 }
           else { status := 201, text := "created", json := 7 }

/-- Witness for C8 at the concrete once-429 server. -/
theorem c8_witness : miro_post once429 2 = (Except.ok 7, [2]) :=
  c8_retry_then_success once429 rfl (by decide)

/-- The three request payload shapes built by miro_group_items: the
identifier list under a nested data.items key, under a nested
data.itemIds key, or under a top-level itemIds key. -/
inductive GroupPayload where
  | dataItems : List PyVal → GroupPayload
  | dataItemIds : List PyVal → GroupPayload
  | topItemIds : List PyVal → GroupPayload
deriving DecidableEq, Repr

/-- Embeds the payload list of src/flick.py, miro_group_items
(lines 170-175): the numerically coerced ids under data.items, the
original ids under data.itemIds, the original ids under itemIds. -/
def miro_group_payloads (item_ids : List PyVal) : List GroupPayload :=
  [GroupPayload.dataItems (coerce_ids_to_numbers item_ids),
   GroupPayload.dataItemIds item_ids,
   GroupPayload.topItemIds item_ids]

/-- Outcome of miro_group_items: the first successful parsed response;
the re-raised last HTTPError when every shape failed; a propagated
RuntimeError, which the except clause does not catch; or raise None,
reached only on an empty shape list, which the function never builds. -/
inductive GroupOutcome where
  | ok : Nat → GroupOutcome
  | raisedHttp : Nat → String → GroupOutcome
  | raisedRuntime : GroupOutcome
  | raisedNone : GroupOutcome
deriving DecidableEq, Repr

/-- Embeds the attempt loop of src/flick.py, miro_group_items
(lines 177-189): send each payload through the retry wrapper; on an
HTTPError remember it as last error and try the next shape; any other
exception propagates at once; after the loop re-raise the last
HTTPError. The second component lists the payloads actually sent, in
order. -/
def miro_group_go (post : GroupPayload → Except PostErr Nat) :
    List GroupPayload → Option (Nat × String) → GroupOutcome × List GroupPayload
  | [], last =>
    (match last with
     | some e => GroupOutcome.raisedHttp e.1 e.2
     | none => GroupOutcome.raisedNone, [])
  | p :: rest, _ =>
    match post p with
    | Except.ok r => (GroupOutcome.ok r, [p])
    | Except.error (PostErr.http s b) =>
      let next := miro_group_go post rest (some (s, b))
      (next.1, p :: next.2)
    | Except.error PostErr.runtimeFailed => (GroupOutcome.raisedRuntime, [p])

/-- Embeds src/flick.py, miro_group_items (lines 159-189): build the
groups endpoint of the board, build the three payload shapes, and run
the attempt loop with no last error yet. The server exchange is
abstracted as a function from endpoint and payload to the retry
wrapper result. -/
def miro_group_items (board_id : String)
    (post : String → GroupPayload → Except PostErr Nat)
    (item_ids : List PyVal) : GroupOutcome × List GroupPayload :=
  let endpoint := "https://api.miro.com/v2" ++ "/boards/" ++ board_id ++ "/groups"
  miro_group_go (post endpoint) (miro_group_payloads item_ids) none

/-- Claim C2: for every board id and non-empty identifier list,
miro_group_items tries the coerced data.items shape, then the original
data.itemIds shape, then the original top-level itemIds shape, in that
order, returns the response of the first shape whose request succeeds
while sending no later shape, and when all three fail raises the error
of the third attempt. -/
theorem c2_group_items_three_shapes (board_id : String)
    (post : String → GroupPayload → Except PostErr Nat)
    (item_ids : List PyVal) (hne : item_ids ≠ []) :
    miro_group_payloads item_ids =
      [GroupPayload.dataItems (coerce_ids_to_numbers item_ids),
       GroupPayload.dataItemIds item_ids,
       GroupPayload.topItemIds item_ids] ∧
    (∀ r, post ("https://api.miro.com/v2" ++ "/boards/" ++ board_id ++ "/groups")
        (GroupPayload.dataItems (coerce_ids_to_numbers item_ids)) = Except.ok r →
      miro_group_items board_id post item_ids =
        (GroupOutcome.ok r, [GroupPayload.dataItems (coerce_ids_to_numbers item_ids)])) ∧
    (∀ s1 b1 r, post ("https://api.miro.com/v2" ++ "/boards/" ++ board_id ++ "/groups")
        (GroupPayload.dataItems (coerce_ids_to_numbers item_ids)) =
          Except.error (PostErr.http s1 b1) →
      post ("https://api.miro.com/v2" ++ "/boards/" ++ board_id ++ "/groups")
        (GroupPayload.dataItemIds item_ids) = Except.ok r →
      miro_group_items board_id post item_ids =
        (GroupOutcome.ok r,
         [GroupPayload.dataItems (coerce_ids_to_numbers item_ids),
          GroupPayload.dataItemIds item_ids])) ∧
    (∀ s1 b1 s2 b2 r, post ("https://api.miro.com/v2" ++ "/boards/" ++ board_id ++ "/groups")
        (GroupPayload.dataItems (coerce_ids_to_numbers item_ids)) =
          Except.error (PostErr.http s1 b1) →
      post ("https://api.miro.com/v2" ++ "/boards/" ++ board_id ++ "/groups")
        (GroupPayload.dataItemIds item_ids) = Except.error (PostErr.http s2 b2) →
      post ("https://api.miro.com/v2" ++ "/boards/" ++ board_id ++ "/groups")
        (GroupPayload.topItemIds item_ids) = Except.ok r →
      miro_group_items board_id post item_ids =
        (GroupOutcome.ok r, miro_group_payloads item_ids)) ∧
    (∀ s1 b1 s2 b2 s3 b3,
      post ("https://api.miro.com/v2" ++ "/boards/" ++ board_id ++ "/groups")
        (GroupPayload.dataItems (coerce_ids_to_numbers item_ids)) =
          Except.error (PostErr.http s1 b1) →
      post ("https://api.miro.com/v2" ++ "/boards/" ++ board_id ++ "/groups")
        (GroupPayload.dataItemIds item_ids) = Except.error (PostErr.http s2 b2) →
      post ("https://api.miro.com/v2" ++ "/boards/" ++ board_id ++ "/groups")
        (GroupPayload.topItemIds item_ids) = Except.error (PostErr.http s3 b3) →
      miro_group_items board_id post item_ids =
        (GroupOutcome.raisedHttp s3 b3, miro_group_payloads item_ids)) := by
  refine ⟨rfl, ?_, ?_, ?_, ?_⟩
  · intro r h
    simp at h
    simp [miro_group_items, miro_group_payloads, miro_group_go, h]
  · intro s1 b1 r h1 h2
    simp at h1 h2
    simp [miro_group_items, miro_group_payloads, miro_group_go, h1, h2]
  · intro s1 b1 s2 b2 r h1 h2 h3
    simp at h1 h2 h3
    simp [miro_group_items, miro_group_payloads, miro_group_go, h1, h2, h3]
  · intro s1 b1 s2 b2 s3 b3 h1 h2 h3
    simp at h1 h2 h3
    simp [miro_group_items, miro_group_payloads, miro_group_go, h1, h2, h3]

/-- A server for the C2 witness: the first shape fails with a 400, the
second succeeds, the third would also succeed. -/
def group_wpost : String → GroupPayload → Except PostErr Nat :=
  fun _ p =>
    match p with
    | GroupPayload.dataItems _ => Except.error (PostErr.http 400 "bad request")
    | GroupPayload.dataItemIds _ => Except.ok 7
    | GroupPayload.topItemIds _ => Except.ok 9

/-- Witness for C2: with that server, grouping returns the second
shape's response having sent only the first two shapes. -/
theorem c2_witness :
    miro_group_items "board1" group_wpost [PyVal.str "12"] =
      (GroupOutcome.ok 7,
       [GroupPayload.dataItems [PyVal.int 12],
        GroupPayload.dataItemIds [PyVal.str "12"]]) :=
  (c2_group_items_three_shapes "board1" group_wpost [PyVal.str "12"]
    (by decide)).2.2.1 400 "bad request" 7 rfl rfl

/-- A parsed photoset container from the album listing response: the
photo array when the photo key is present, and the server-reported
total page count, already defaulted to 1 when the pages key is absent,
as photoset.get with default 1 does. -/
structure Photoset where
  photo : Option (List PhotoRecord)
  pages : Nat
deriving DecidableEq, Repr

/-- The request parameter dict built for each listing call in
src/flick.py, flickr_photos_in_photoset (lines 46-56). -/
structure FlickrParams where
  method : String
  api_key : String
  user_id : String
  photoset_id : String
  extras : String
  per_page : Nat
  page : Nat
  format : String
  nojsoncallback : Nat
deriving DecidableEq, Repr

/-- The exact parameters the script sends for one page. -/
def flickr_request_params (api_key user_id photoset_id : String) (page : Nat) :
    FlickrParams :=
  { method := "flickr.photosets.getPhotos"
    api_key := api_key
    user_id := user_id
    photoset_id := photoset_id
    extras := "media,path_alias,original_format,url_o,url_k,url_h,url_l,url_c,url_z,url_m"
    per_page := 500
    page := page
    format := "json"
    nojsoncallback := 1 }

/-- Embeds src/flick.py, flickr_photos_in_photoset (lines 42-67). The
server maps a request parameter dict to the optional photoset container
of the JSON response (none when the photoset key is absent). Starting
from the given page, request that page; stop with no yield when the
container or its photo array is missing; otherwise yield the records of
the page in order and stop when the page number has reached the
reported page count, else advance the page by one. The fuel argument
bounds the unbounded while loop; the result pairs the yielded records
with the trace of requests sent. -/
def flickr_photos_in_photoset (server : FlickrParams → Option Photoset)
    (api_key user_id photoset_id : String) :
    Nat → Nat → List PhotoRecord × List FlickrParams
  | 0, _ => ([], [])
  | fuel + 1, page =>
    let params := flickr_request_params api_key user_id photoset_id page
    match server params with
    | none => ([], [params])
    | some photoset =>
      match photoset.photo with
      | none => ([], [params])
      | some photos =>
        if photoset.pages ≤ page then (photos, [params])
        else
          let rest := flickr_photos_in_photoset server api_key user_id photoset_id
            fuel (page + 1)
          (photos ++ rest.1, params :: rest.2)

/-- Claim C3: starting at page 1 with page size 500, against any server
that reports 2 total pages holding 500 and 10 records, the reader
yields exactly the 510 records of the two pages in order and sends
exactly the two requests for pages 1 and 2, never a third, for every
loop bound of at least 2. -/
theorem c3_reader_two_pages (server : FlickrParams → Option Photoset)
    (api_key user_id photoset_id : String) (l1 l2 : List PhotoRecord)
    (h1 : server (flickr_request_params api_key user_id photoset_id 1) =
      some { photo := some l1, pages := 2 })
    (h2 : server (flickr_request_params api_key user_id photoset_id 2) =
      some { photo := some l2, pages := 2 })
    (hl1 : l1.length = 500) (hl2 : l2.length = 10)
    (fuel : Nat) (hfuel : 2 ≤ fuel) :
    flickr_photos_in_photoset server api_key user_id photoset_id fuel 1 =
      (l1 ++ l2,
       [flickr_request_params api_key user_id photoset_id 1,
        flickr_request_params api_key user_id photoset_id 2]) ∧
    (l1 ++ l2).length = 510 ∧
    (flickr_request_params api_key user_id photoset_id 1).per_page = 500 ∧
    (flickr_request_params api_key user_id photoset_id 1).page = 1 := by
  obtain ⟨k, rfl⟩ : ∃ k, fuel = k + 1 + 1 := ⟨fuel - 2, by omega⟩
  refine ⟨?_, by simp [hl1, hl2], rfl, rfl⟩
  simp only [flickr_photos_in_photoset, h1, h2]
  norm_num

/-- A record with every field absent, for the C3 witness pages. -/
def blank_photo : PhotoRecord :=
  ⟨none, none, none, none, none, none, none, none⟩

/-- A server for the C3 witness: page 1 holds 500 records, page 2 holds
10, both reporting 2 total pages. -/
def two_page_server : FlickrParams → Option Photoset :=
  fun q =>
    if q.page = 1 then some { photo := some (List.replicate 500 blank_photo), pages := 2 }
    else if q.page = 2 then some { photo := some (List.replicate 10 blank_photo), pages := 2 }
    else none

/-- Witness for C3 at the concrete two-page server. -/
theorem c3_witness :
    flickr_photos_in_photoset two_page_server "key" "user" "album" 2 1 =
      (List.replicate 500 blank_photo ++ List.replicate 10 blank_photo,
       [flickr_request_params "key" "user" "album" 1,
        flickr_request_params "key" "user" "album" 2]) ∧
    (List.replicate 500 blank_photo ++ List.replicate 10 blank_photo).length = 510 ∧
    (flickr_request_params "key" "user" "album" 1).per_page = 500 ∧
    (flickr_request_params "key" "user" "album" 1).page = 1 :=
  c3_reader_two_pages two_page_server "key" "user" "album" _ _ rfl rfl
    (by simp) (by simp) 2 (by norm_num)

/-- Embeds the created_ids accumulation of one per-photo iteration of
src/flick.py, main (lines 244-297). Each argument is the outcome of one
creation call: an HTTPError, or a response whose id field may be None.
An image creation failure aborts the iteration before grouping (none);
rectangle and text failures are caught and skipped; a successful call
appends its id exactly when the id is not None. -/
def collect_created_ids (img rect text : Except PostErr (Option String)) :
    Option (List String) :=
  match img with
  | Except.error _ => none
  | Except.ok iid =>
    let ids0 : List String :=
      match iid with
      | some i => [i]
      | none => []
    let ids1 := ids0 ++
      (match rect with
       | Except.ok (some r) => [r]
       | _ => [])
    let ids2 := ids1 ++
      (match text with
       | Except.ok (some t) => [t]
       | _ => [])
    some ids2

/-- Number of created item identifiers collected for the photo; 0 when
the iteration was aborted by the image creation failure. -/
def collected_id_count (img rect text : Except PostErr (Option String)) : Nat :=
  match collect_created_ids img rect text with
  | none => 0
  | some ids => ids.length

/-- Embeds the grouping decision of src/flick.py, main (lines 299-304):
group_ids keeps the non-None entries of created_ids, which keeps all of
them since only non-None ids were appended, and the grouping call is
made exactly once when at least two ids remain, else not at all.
Returns how many grouping calls the iteration makes. -/
def group_call_count (img rect text : Except PostErr (Option String)) : Nat :=
  match collect_created_ids img rect text with
  | none => 0
  | some created_ids =>
    let group_ids := created_ids
    if 2 ≤ group_ids.length then 1 else 0

/-- Claim C6: in each per-photo iteration, the grouping call is made
exactly once when at least two created item identifiers were collected,
and never when zero or one were collected. -/
theorem c6_group_called_iff_two_ids (img rect text : Except PostErr (Option String)) :
    (2 ≤ collected_id_count img rect text → group_call_count img rect text = 1) ∧
    (collected_id_count img rect text ≤ 1 → group_call_count img rect text = 0) := by
  rcases hc : collect_created_ids img rect text with _ | ids
  · simp [collected_id_count, group_call_count, hc]
  · simp only [collected_id_count, group_call_count, hc]
    constructor
    · intro h
      rw [if_pos h]
    · intro h
      rw [if_neg (by omega)]

/-- Witness for C6: two collected identifiers, one grouping call. -/
theorem c6_witness :
    2 ≤ collected_id_count (Except.ok (some "imgid")) (Except.ok (some "rectid"))
        (Except.error (PostErr.http 400 "bad")) ∧
    group_call_count (Except.ok (some "imgid")) (Except.ok (some "rectid"))
        (Except.error (PostErr.http 400 "bad")) = 1 :=
  ⟨by decide, (c6_group_called_iff_two_ids _ _ _).1 (by decide)⟩

/-- The five required configuration values as read from the environment
at startup in src/flick.py (lines 9-13); none models an unset variable. -/
structure Config where
  FLICKR_API_KEY : Option String
  FLICKR_USER_ID : Option String
  FLICKR_PHOTOSETID : Option String
  MIRO_TOKEN : Option String
  MIRO_BOARD_ID : Option String
deriving DecidableEq, Repr

/-- Python truthiness test not v on an optional string: true when the
variable is absent or the empty string. -/
def py_falsy : Option String → Bool
  | none => true
  | some s => decide (s = "")

/-- Embeds the missing list of src/flick.py, main (lines 210-216): the
names of the required values, in their dict order, whose value is
falsy. -/
def missing_env_vars (cfg : Config) : List String :=
  ([("FLICKR_API_KEY", cfg.FLICKR_API_KEY),
    ("FLICKR_USER_ID", cfg.FLICKR_USER_ID),
    ("FLICKR_PHOTOSET_ID", cfg.FLICKR_PHOTOSETID),
    ("MIRO_TOKEN", cfg.MIRO_TOKEN),
    ("MIRO_BOARD_ID", cfg.MIRO_BOARD_ID)].filter
      (fun kv => py_falsy kv.2)).map Prod.fst

/-- Embeds the start of src/flick.py, main (lines 209-220): when any
required value is falsy, raise SystemExit listing the missing names and
never reach the album listing call; otherwise run the album reader. An
error result therefore carries no record and no request trace. -/
def main_run (cfg : Config) (server : FlickrParams → Option Photoset) (fuel : Nat) :
    Except String (List PhotoRecord × List FlickrParams) :=
  let missing := missing_env_vars cfg
  if missing ≠ [] then
    Except.error ("Missing required env vars: " ++ String.intercalate ", " missing)
  else
    Except.ok (flickr_photos_in_photoset server (cfg.FLICKR_API_KEY.getD "")
      (cfg.FLICKR_USER_ID.getD "") (cfg.FLICKR_PHOTOSETID.getD "") fuel 1)

/-- Claim C7: when any of the five required configuration values is
absent or empty, the program exits with the message listing exactly the
missing names before any network call: the run result is the exit
message alone, with no request trace, and the listed names are exactly
the names of the falsy values, in their fixed order. -/
theorem c7_missing_config_aborts (cfg : Config)
    (server : FlickrParams → Option Photoset) (fuel : Nat)
    (h : missing_env_vars cfg ≠ []) :
    main_run cfg server fuel =
      Except.error ("Missing required env vars: " ++
        String.intercalate ", " (missing_env_vars cfg)) ∧
    missing_env_vars cfg =
      (if py_falsy cfg.FLICKR_API_KEY then ["FLICKR_API_KEY"] else []) ++
      (if py_falsy cfg.FLICKR_USER_ID then ["FLICKR_USER_ID"] else []) ++
      (if py_falsy cfg.FLICKR_PHOTOSETID then ["FLICKR_PHOTOSET_ID"] else []) ++
      (if py_falsy cfg.MIRO_TOKEN then ["MIRO_TOKEN"] else []) ++
      (if py_falsy cfg.MIRO_BOARD_ID then ["MIRO_BOARD_ID"] else []) ∧
    (∀ recs reqs, main_run cfg server fuel ≠ Except.ok (recs, reqs)) := by
  have hmain : main_run cfg server fuel =
      Except.error ("Missing required env vars: " ++
        String.intercalate ", " (missing_env_vars cfg)) := by
    simp only [main_run]
    rw [if_pos h]
  refine ⟨hmain, ?_, ?_⟩
  · simp only [missing_env_vars, List.filter]
    by_cases h1 : py_falsy cfg.FLICKR_API_KEY <;>
      by_cases h2 : py_falsy cfg.FLICKR_USER_ID <;>
      by_cases h3 : py_falsy cfg.FLICKR_PHOTOSETID <;>
      by_cases h4 : py_falsy cfg.MIRO_TOKEN <;>
      by_cases h5 : py_falsy cfg.MIRO_BOARD_ID <;>
      simp [h1, h2, h3, h4, h5]
  · intro recs reqs
    rw [hmain]
    intro hcontra
    exact Except.noConfusion hcontra

/-- Witness for C7 at a configuration with three falsy values: a set
key, an unset user id, an empty album id, a set token, an unset board
id. -/
theorem c7_witness :
    main_run ⟨some "key", none, some "", some "token", none⟩ two_page_server 0 =
      Except.error ("Missing required env vars: " ++ String.intercalate ", "
        (missing_env_vars ⟨some "key", none, some "", some "token", none⟩)) ∧
    missing_env_vars ⟨some "key", none, some "", some "token", none⟩ =
      ["FLICKR_USER_ID", "FLICKR_PHOTOSET_ID", "MIRO_BOARD_ID"] := by
  have h := c7_missing_config_aborts ⟨some "key", none, some "", some "token", none⟩
    two_page_server 0 (by decide)
  exact ⟨h.1, by decide⟩
